import Mathlib

/-!
Verification of the influxdb-toolkit query/response normalization layer.

This file contains a shallow embedding, in Lean 4, of the version-abstracting
InfluxDB client library found under `src/influxdb-toolkit/src/influxdb_toolkit/`:
the InfluxQL and Flux query builders, the v2 dialect router, the factory's
version auto-detection, the write gating and batching logic, the multi-series
merge engine of the abstract base client, and the time-column normalization.
Python dictionaries are embedded as association lists or lookup functions,
Python `datetime` values as an opaque ISO rendering plus an optional zone tag,
pandas DataFrames as a column-name list plus a list of rows, and machine
integers as `Int`/`Nat` (no overflow is relevant anywhere in this code).
Backend drivers (the vendor SDK HTTP clients) are external collaborators and
are embedded as explicit function parameters together with a trace of the
calls issued to them, so that "the backend is never contacted" is expressible
as the trace being empty.
-/

/-! ## Python string primitives -/

/-- Python `str.upper()` restricted to ASCII, as used on timezone names and
query keywords in this code base. -/
def pyUpper (s : String) : String :=
  String.mk (s.data.map Char.toUpper)

/-- Python `str.strip()` (whitespace at both ends removed). -/
def pyStrip (s : String) : String :=
  String.mk (((s.data.dropWhile Char.isWhitespace).reverse.dropWhile Char.isWhitespace).reverse)

/-- Python `str.startswith(p)`. -/
def strStartsWith (s p : String) : Bool :=
  decide (s.data.take p.data.length = p.data)

/-- Python truthiness of an optional string (`None` and `""` are falsy). -/
def truthyS : Option String → Bool
  | none => false
  | some s => s != ""

/-- `a.get(k, default-from-b)` style fallback used throughout
`get_multiple_timeseries`: per-query override, else the global value. -/
def optOr {α : Type} : Option α → Option α → Option α
  | some x, _ => some x
  | none, b => b

/-! ## Error taxonomy (`exceptions.py`) -/

/-- The exception kinds of `influxdb_toolkit.exceptions` plus Python's
built-in `ValueError`, which the clients use for request validation. -/
inductive TErr where
  | valueError (msg : String)
  | unsafeOperation (msg : String)
  | unsupportedOperation (msg : String)
  | queryError (msg : String)
  | connectionError (msg : String)
deriving DecidableEq, Repr

/-! ## Factory version auto-detection (`client.py`, `InfluxDBClientFactory._detect_version`) -/

/-- The v2 indicator keys of `_detect_version`. -/
def v2DetectKeys : List String := ["url", "token", "org"]

/-- The v1 indicator keys of `_detect_version`. -/
def v1DetectKeys : List String := ["host", "database", "username", "user", "password", "pwd"]

/-- `config.get(k) not in (None, "")`: the key is present with a non-empty value. -/
def cfgHasKey (cfg : String → Option String) (k : String) : Bool :=
  match cfg k with
  | none => false
  | some v => v != ""

/-- Error message for an ambiguous configuration. -/
def ambiguousConfigMsg : String :=
  "Ambiguous config: contains both v1 and v2 keys. Pass a clean config for one version, or set version explicitly."

/-- Error message when no version can be inferred. -/
def cannotInferMsg : String :=
  "Could not infer InfluxDB version from config. Provide v1 keys (host/database/username/password) or v2 keys (url/token/org), or pass version explicitly."

/-- `InfluxDBClientFactory._detect_version`: infer the InfluxDB version from
which config keys carry non-empty values. The factory raises `ValueError`
on ambiguous or undetectable configs. -/
def detectVersion (cfg : String → Option String) : Except String Nat :=
  let hasV2 := v2DetectKeys.any (cfgHasKey cfg)
  let hasV1 := v1DetectKeys.any (cfgHasKey cfg)
  if hasV2 && hasV1 then .error ambiguousConfigMsg
  else if hasV2 then .ok 2
  else if hasV1 then .ok 1
  else .error cannotInferMsg

/-! ## v2 dialect detection (`v2/client.py`, `_is_influxql` and `query_raw`) -/

/-- The InfluxQL keyword tuple of `_is_influxql`. -/
def influxqlKeywords : List String :=
  ["SELECT", "SHOW", "CREATE", "DROP", "DELETE", "ALTER", "GRANT", "REVOKE"]

/-- `_is_influxql`: strip, uppercase, and test for one of the keyword starts. -/
def isInfluxql (query : String) : Bool :=
  influxqlKeywords.any (fun kw => strStartsWith (pyUpper (pyStrip query)) kw)

/-- The two execution paths of `InfluxDBClientV2.query_raw`. -/
inductive V2Route where
  | influxqlCompat
  | flux
deriving DecidableEq, Repr

/-- The routing decision of `InfluxDBClientV2.query_raw`: InfluxQL-looking text
goes to `_execute_influxql_compat`, everything else to the Flux query API. -/
def queryRawRouteV2 (query : String) : V2Route :=
  if isInfluxql query then .influxqlCompat else .flux

/-! ## Datetimes and the InfluxQL query builder (`v1/query_builder.py`) -/

/-- A Python `datetime` as the query builders see it: an opaque
`isoformat()` rendering plus an optional `tzinfo` (UTC-offset in minutes). -/
structure Dt where
  iso : String
  tzinfo : Option Int
deriving DecidableEq, Repr

/-- `_fmt_time` (identical in both query builders): naive datetimes get an
explicit `Z` suffix, aware ones are rendered as-is. -/
def fmtDtime (value : Dt) : String :=
  match value.tzinfo with
  | none => value.iso ++ "Z"
  | some _ => value.iso

/-- `_field_exprs`: with a (truthy) aggregation each field is wrapped as
`aggregation("field")`, otherwise fields are quoted raw. -/
def fieldExprs (fields : List String) : Option String → List String
  | none => fields.map (fun f => "\"" ++ f ++ "\"")
  | some a =>
    if a = "" then fields.map (fun f => "\"" ++ f ++ "\"")
    else fields.map (fun f => a ++ "(\"" ++ f ++ "\")")

/-- `_time_condition`: inclusive lower bound, strict upper bound. -/
def timeCondition (start stop : Dt) : String :=
  "time >= '" ++ fmtDtime start ++ "' AND time < '" ++ fmtDtime stop ++ "'"

/-- `_tags_condition`: conjunction of `"key" = 'value'` pairs in dict order. -/
def tagsCondition (tags : List (String × String)) : String :=
  String.intercalate " AND " (tags.map (fun p => "\"" ++ p.1 ++ "\" = '" ++ p.2 ++ "'"))

/-- `build_influxql_query`: SELECT list, WHERE with time and tag conditions,
GROUP BY only when both aggregation and interval are truthy, then TZ. -/
def buildInfluxqlQuery (measurement : String) (fields : List String)
    (start stop : Dt) (tags : Option (List (String × String)))
    (interval aggregation : Option String) (timezone : String) : String :=
  let whereC :=
    timeCondition start stop ++
      (match tags with
       | none => ""
       | some [] => ""
       | some (t :: ts) => " AND " ++ tagsCondition (t :: ts))
  let base := "SELECT " ++ String.intercalate ", " (fieldExprs fields aggregation)
      ++ " FROM \"" ++ measurement ++ "\" WHERE " ++ whereC
  let withGroup := base ++
    (if truthyS aggregation && truthyS interval
     then " GROUP BY time(" ++ interval.getD "" ++ ")"
     else "")
  withGroup ++ (if timezone != "" then " TZ('" ++ timezone ++ "')" else "")

/-! ## The Flux query builder (`v2/query_builder.py`) -/

/-- `build_flux_query`: the Flux pipeline text for a time-series request. -/
def buildFluxQuery (bucket measurement : String) (fields : List String)
    (start stop : Dt) (tags : Option (List (String × String)))
    (interval aggregation : Option String) : String :=
  let fieldFilter := String.intercalate " or " (fields.map (fun f => "r._field == \"" ++ f ++ "\""))
  let lines :=
    ["from(bucket: \"" ++ bucket ++ "\")",
     "  |> range(start: " ++ fmtDtime start ++ ", stop: " ++ fmtDtime stop ++ ")",
     "  |> filter(fn: (r) => r._measurement == \"" ++ measurement ++ "\")",
     "  |> filter(fn: (r) => " ++ fieldFilter ++ ")"]
  let lines := lines ++
    (match tags with
     | none => []
     | some [] => []
     | some (t :: ts) =>
       (t :: ts).map (fun p => "  |> filter(fn: (r) => r[\"" ++ p.1 ++ "\"] == \"" ++ p.2 ++ "\")"))
  let lines := lines ++
    (if truthyS aggregation && truthyS interval
     then ["  |> aggregateWindow(every: " ++ interval.getD "" ++ ", fn: " ++ aggregation.getD "" ++ ", createEmpty: false)"]
     else [])
  let lines := lines ++ ["  |> yield(name: \"result\")"]
  String.intercalate "\n" lines

/-! ## Timestamps and the time-column normalization

The clients render backend time strings through
`pd.to_datetime(df["time"], utc=True)` and then, only for a truthy non-"UTC"
timezone, `tz_convert(timezone)` followed by `tz_localize(None)`. A pandas
timestamp is embedded as its wall-clock value (minutes since epoch in the
attached zone) plus an optional attached zone offset (`none` = zone-naive). -/

/-- A pandas timestamp: wall-clock value plus optional attached UTC offset
(in minutes; `some 0` is tz-aware UTC, `none` is zone-naive). -/
structure Timestamp where
  wall : Int
  zoneOffset : Option Int
deriving DecidableEq, Repr

/-- The time normalization applied to each backend time value (a UTC instant)
in `InfluxDBClientV1.get_timeseries`, `_normalize_flux_dataframe` and
`_influxql_result_to_df`: parse as tz-aware UTC; when the requested timezone
is truthy and not "UTC" (case-insensitive), convert to that zone's wall clock
and strip the zone. `off` is the zone database (zone name to UTC offset). -/
def normalizeTimeValue (off : String → Int) (timezone : String) (instant : Int) : Timestamp :=
  let aware : Timestamp := ⟨instant, some 0⟩
  if timezone != "" && pyUpper timezone != "UTC" then
    ⟨instant + off timezone, none⟩
  else aware

/-! ## DataFrames (the pandas fragment this code uses) -/

/-- A cell of an embedded DataFrame. -/
inductive Cell where
  | nan
  | str (s : String)
  | int (n : Int)
  | time (t : Timestamp)
deriving DecidableEq, Repr

/-- A pandas DataFrame: named columns plus rows of cells (row `i`, column `j`
is `rows[i][j]` for `j < cols.length`). -/
structure DataFrame where
  cols : List String
  rows : List (List Cell)
deriving DecidableEq, Repr

/-- `df.empty`: a DataFrame is empty when either axis has length zero. -/
def dfEmpty (df : DataFrame) : Bool :=
  df.rows.isEmpty || df.cols.isEmpty

/-- Position of a named column (first occurrence). -/
def colIdx (c : String) : List String → Option Nat
  | [] => none
  | x :: xs => if x = c then some 0 else (colIdx c xs).map (· + 1)

/-- The cell of a row under a named column (`row[col]`). -/
def cellAt (cols : List String) (row : List Cell) (c : String) : Cell :=
  match colIdx c cols with
  | some i => row.getD i Cell.nan
  | none => Cell.nan

/-- `_move_time_first` (identical in `v1/client.py` and `v2/client.py`):
reindex the columns so `time` comes first when present and not already first. -/
def moveTimeFirst (df : DataFrame) : DataFrame :=
  if !df.cols.isEmpty && decide (df.cols.head? ≠ some "time") && decide ("time" ∈ df.cols) then
    let newCols := "time" :: df.cols.filter (fun c => c != "time")
    ⟨newCols, df.rows.map (fun r => newCols.map (cellAt df.cols r))⟩
  else df

/-- `df["time"] = pd.to_datetime(...)` plus the conversion branch, applied to
the `time` column of every row. -/
def convertTimeCell (off : String → Int) (timezone : String) : Cell → Cell
  | .int t => .time (normalizeTimeValue off timezone t)
  | c => c

/-- Apply `convertTimeCell` down the `time` column. -/
def convertTimeColumn (off : String → Int) (timezone : String) (df : DataFrame) : DataFrame :=
  match colIdx "time" df.cols with
  | none => df
  | some i => ⟨df.cols, df.rows.map (fun r => r.set i (convertTimeCell off timezone (r.getD i Cell.nan)))⟩

/-- The result post-processing of `InfluxDBClientV1.get_timeseries` (lines
113-121): empty results are returned as-is; otherwise, when a `time` column is
present, normalize it and move it first. -/
def normalizeV1Result (off : String → Int) (timezone : String) (df : DataFrame) : DataFrame :=
  if dfEmpty df then df
  else if "time" ∈ df.cols then moveTimeFirst (convertTimeColumn off timezone df)
  else df

/-- The values of the `time` column, in row order. -/
def timeColumn (df : DataFrame) : List Cell :=
  match colIdx "time" df.cols with
  | none => []
  | some i => df.rows.map (fun r => r.getD i Cell.nan)

/-! ## Multi-series merge engine (`base.py`) -/

/-- Python's `<` on strings: lexicographic comparison of code points. -/
def strLt : List Char → List Char → Bool
  | [], [] => false
  | [], _ :: _ => true
  | _ :: _, [] => false
  | a :: as, b :: bs =>
    if a.toNat < b.toNat then true
    else if b.toNat < a.toNat then false
    else strLt as bs

/-- `a < b` on Python strings. -/
def pyStrLt (a b : String) : Bool :=
  strLt a.data b.data

/-- `a <= b` on Python strings. -/
def pyStrLe (a b : String) : Bool :=
  pyStrLt a b || decide (a = b)

/-- Python's comparison on `(key, value)` string pairs, as used by
`sorted(tags.items())`: lexicographic on the pair. -/
def pairLe (a b : String × String) : Bool :=
  pyStrLt a.1 b.1 || (decide (a.1 = b.1) && pyStrLe a.2 b.2)

/-- `sorted(tags.items())`: sort the dict's pairs by Python's tuple order. -/
def sortTagPairs (ts : List (String × String)) : List (String × String) :=
  ts.insertionSort (fun a b => pairLe a b = true)

/-- `_series_prefix`: the deterministic series name
`<measurement>[_<tagkey>=<tagvalue>...]` with tags sorted; a falsy tags
mapping (absent or empty) leaves the bare measurement name. -/
def seriesNameOf (measurement : String) (tags : Option (List (String × String))) : String :=
  match tags with
  | none => measurement
  | some [] => measurement
  | some (t :: ts) =>
    measurement ++ "_" ++
      String.intercalate "_" ((sortTagPairs (t :: ts)).map (fun p => p.1 ++ "=" ++ p.2))

/-- `_prefix_columns`: on a non-empty frame having a `time` column, rename
every non-`time` column to `<series>_<column>`. -/
def renameSeriesCols (df : DataFrame) (sname : String) : DataFrame :=
  if dfEmpty df then df
  else if "time" ∈ df.cols then
    ⟨df.cols.map (fun c => if c = "time" then c else sname ++ "_" ++ c), df.rows⟩
  else df

/-- `_merge_on_time`: an empty side yields the other side unchanged; otherwise
a pandas outer merge on the `time` column. The outer merge is modelled as:
result columns are the left columns followed by the right non-`time` columns;
each left row is joined with every right row carrying the same time value
(NaN-filled when none matches), and right rows whose time value matches no
left row are appended NaN-filled on the left side. pandas additionally sorts
the key on outer joins; row order is not relied upon by any claim and is left
as produced here. -/
def mergeOnTime (left right : DataFrame) : DataFrame :=
  if dfEmpty left then right
  else if dfEmpty right then left
  else
    let rightValCols := right.cols.filter (fun c => c != "time")
    let dropTime := fun (rr : List Cell) =>
      ((right.cols.zip rr).filter (fun p => p.1 != "time")).map Prod.snd
    let lrows := left.rows.flatMap (fun lr =>
      let t := cellAt left.cols lr "time"
      let ms := right.rows.filter (fun rr => cellAt right.cols rr "time" == t)
      if ms.isEmpty then [lr ++ rightValCols.map (fun _ => Cell.nan)]
      else ms.map (fun rr => lr ++ dropTime rr))
    let rrows := (right.rows.filter (fun rr =>
        left.rows.all (fun lr => cellAt left.cols lr "time" != cellAt right.cols rr "time"))).map
      (fun rr =>
        left.cols.map (fun c => if c = "time" then cellAt right.cols rr "time" else Cell.nan)
          ++ dropTime rr)
    ⟨left.cols ++ rightValCols, lrows ++ rrows⟩

/-- A Python value that is either a string or a list of strings, as accepted
for the `fields`/`fieldKey` entries of a multi-series request. -/
inductive StrOrList where
  | one (s : String)
  | many (l : List String)
deriving DecidableEq, Repr

/-- One entry of the request list of `get_multiple_timeseries`; `none` models
an absent dictionary key. -/
structure MultiQuery where
  measurement : Option String
  fields : Option StrOrList
  fieldKey : Option StrOrList
  tags : Option (List (String × String))
  start : Option Dt
  stop : Option Dt
  interval : Option String
  aggregation : Option String
deriving DecidableEq, Repr

/-- The fields-resolution of `get_multiple_timeseries`: use `fields` when
present, else `fieldKey` (default `"value"`); a bare string becomes a
one-element list. -/
def resolveFields (q : MultiQuery) : List String :=
  match q.fields with
  | some (.one s) => [s]
  | some (.many l) => l
  | none =>
    match q.fieldKey.getD (.one "value") with
    | .one s => [s]
    | .many l => l

/-- The argument record handed to the abstract `get_timeseries` by the merge
engine. -/
structure FetchArgs where
  measurement : String
  fields : List String
  start : Dt
  stop : Dt
  tags : Option (List (String × String))
  interval : Option String
  aggregation : Option String
  timezone : String
deriving DecidableEq, Repr

/-- One loop iteration of `get_multiple_timeseries`: validate the entry,
resolve the effective request, fetch, and either skip an empty result
(`continue`) or prefix and outer-merge a non-empty one. -/
def gmtsStep (fetch : FetchArgs → DataFrame) (gstart gend : Option Dt)
    (gint gagg : Option String) (tz : String) (acc : DataFrame) (q : MultiQuery) :
    Except TErr DataFrame :=
  match q.measurement with
  | none => .error (.valueError "measurement is required in each query")
  | some m =>
    if m = "" then .error (.valueError "measurement is required in each query")
    else
      let fl := resolveFields q
      match optOr q.start gstart, optOr q.stop gend with
      | some s, some e =>
        let df := fetch ⟨m, fl, s, e, q.tags, optOr q.interval gint, optOr q.aggregation gagg, tz⟩
        if dfEmpty df then .ok acc
        else .ok (mergeOnTime acc (renameSeriesCols df (seriesNameOf m q.tags)))
      | _, _ => .error (.valueError "start and end are required for get_multiple_timeseries")

/-- The request-list fold of `get_multiple_timeseries`. -/
def gmtsGo (fetch : FetchArgs → DataFrame) (gstart gend : Option Dt)
    (gint gagg : Option String) (tz : String) :
    DataFrame → List MultiQuery → Except TErr DataFrame
  | acc, [] => .ok acc
  | acc, q :: qs =>
    match gmtsStep fetch gstart gend gint gagg tz acc q with
    | .error e => .error e
    | .ok acc2 => gmtsGo fetch gstart gend gint gagg tz acc2 qs

/-- `InfluxDBClientBase.get_multiple_timeseries`: fold the request list over
the merge step starting from the empty accumulator `pd.DataFrame()`. The
abstract single-series fetch (`self.get_timeseries`) is the `fetch`
parameter. -/
def getMultipleTimeseries (fetch : FetchArgs → DataFrame) (queries : List MultiQuery)
    (gstart gend : Option Dt) (gint gagg : Option String) (tz : String) :
    Except TErr DataFrame :=
  gmtsGo fetch gstart gend gint gagg tz ⟨[], []⟩ queries

/-! ## Write gating, batching and admin operations

Every operation is embedded as a function returning the outcome paired with
the trace of backend-driver calls it issued, so that "fails before touching
the backend" is the trace being `[]`. -/

/-- A point dictionary as passed to `write_points`. -/
structure Point where
  measurement : Option String
  tags : List (String × String)
  time : Option Cell
  fields : List (String × Cell)
deriving DecidableEq, Repr

/-- A call issued to the backend driver. -/
inductive BackendCall where
  | writeBatch (points : List Point)
  | deleteCall (start stop : Dt) (predicate bucket org : String)
deriving DecidableEq, Repr

/-- The `details` mapping of a `WriteResult`. -/
structure WriteDetails where
  points : Nat
  batchSize : Option Int
  batches : Nat
deriving DecidableEq, Repr

/-- `models.WriteResult`. -/
structure WriteResult where
  success : Bool
  message : Option String
  details : Option WriteDetails
deriving DecidableEq, Repr

/-- `InfluxDBClientBase._ensure_writes_allowed`: the `allow_write` safety
gate, checked first in every write/delete/admin method. -/
def ensureWritesAllowed (allowWrite : Bool) (op : String) : Except TErr Unit :=
  if !allowWrite then
    .error (.unsafeOperation (op ++ " blocked. Set INFLUXDB_ALLOW_WRITE=true or allow_write=True in config."))
  else .ok ()

/-- The message of the `allow_write` gate for operation `op`. -/
def unsafeMsg (op : String) : String :=
  op ++ " blocked. Set INFLUXDB_ALLOW_WRITE=true or allow_write=True in config."

/-- The positive-size slicing loop of `_chunk_points`
(`points[i:i+k] for i in range(0, len(points), k)` with `k ≥ 1`). -/
def chunkList (k : Nat) (l : List Point) : List (List Point) :=
  match l with
  | [] => []
  | x :: xs =>
    if k = 0 then [x :: xs]
    else (x :: xs).take k :: chunkList k ((x :: xs).drop k)
termination_by l.length
decreasing_by simp; omega

/-- `_chunk_points` (identical in `v1/client.py` and `v2/client.py`): a falsy
batch size (absent or 0) yields one chunk with everything; a negative one
makes the Python range empty; otherwise slice into runs of `batch_size`. -/
def chunkPoints (points : List Point) : Option Int → List (List Point)
  | none => [points]
  | some k => if k = 0 then [points] else if k < 0 then [] else chunkList k.toNat points

/-- The measurement-defaulting loop of `write_points`:
`if "measurement" not in p: p["measurement"] = measurement`. -/
def setDefaultMeasurement (measurement : String) (points : List Point) : List Point :=
  points.map (fun p =>
    match p.measurement with
    | none => { p with measurement := some measurement }
    | some _ => p)

/-- `batch_size is not None and batch_size <= 0`. -/
def badBatchSize : Option Int → Bool
  | none => false
  | some k => decide (k ≤ 0)

/-- `InfluxDBClientV1.write_points`: gate, validate `batch_size`, default the
measurement, chunk, send every chunk to the v1 driver (`backendOk` is its
per-chunk boolean reply), and report point/batch counts. -/
def writePointsV1 (allowWrite : Bool) (backendOk : List Point → Bool)
    (points : List Point) (measurement : String) (batchSize : Option Int) :
    Except TErr WriteResult × List BackendCall :=
  match ensureWritesAllowed allowWrite "write_points" with
  | .error e => (.error e, [])
  | .ok _ =>
    if badBatchSize batchSize then
      (.error (.valueError "batch_size must be greater than zero"), [])
    else
      let pts := setDefaultMeasurement measurement points
      let chunks := chunkPoints pts batchSize
      let overallOk := chunks.all backendOk
      (.ok ⟨overallOk, none, some ⟨points.length, batchSize, chunks.length⟩⟩,
        chunks.map .writeBatch)

/-- `InfluxDBClientV2.write_points`: gate, require a truthy bucket, validate
`batch_size`, default the measurement, chunk, write every chunk through
`write_api`, and report point/batch counts (always `success=True`). -/
def writePointsV2 (allowWrite : Bool) (bucket : Option String)
    (points : List Point) (measurement : String) (batchSize : Option Int) :
    Except TErr WriteResult × List BackendCall :=
  match ensureWritesAllowed allowWrite "write_points" with
  | .error e => (.error e, [])
  | .ok _ =>
    if !truthyS bucket then (.error (.valueError "bucket is required for v2 writes"), [])
    else if badBatchSize batchSize then
      (.error (.valueError "batch_size must be greater than zero"), [])
    else
      let pts := setDefaultMeasurement measurement points
      let chunks := chunkPoints pts batchSize
      (.ok ⟨true, none, some ⟨points.length, batchSize, chunks.length⟩⟩,
        chunks.map .writeBatch)

/-- `str(row[k])` for the tag columns of `write_dataframe`. -/
def cellStr : Cell → String
  | .nan => "nan"
  | .str s => s
  | .int n => toString n
  | .time t => toString t.wall

/-- The row-to-point conversion shared by both `write_dataframe`
implementations: select the field columns (explicit list when truthy, else
every column that is neither the time column nor a tag column) and build one
point per row. -/
def dataframePoints (df : DataFrame) (measurement : String)
    (tagCols fieldCols : Option (List String)) (timeCol : String) : List Point :=
  let tagColsL := tagCols.getD []
  let fieldsSel :=
    match fieldCols with
    | some (c :: cs) => c :: cs
    | _ => df.cols.filter (fun c => decide (c ∉ timeCol :: tagColsL))
  df.rows.map (fun row =>
    { measurement := some measurement
      tags :=
        match tagCols with
        | some (c :: cs) => (c :: cs).map (fun k => (k, cellStr (cellAt df.cols row k)))
        | _ => []
      time := some (cellAt df.cols row timeCol)
      fields := fieldsSel.map (fun k => (k, cellAt df.cols row k)) })

/-- `InfluxDBClientV1.write_dataframe`: gate, require the time column, convert
rows to points, delegate to `write_points`. -/
def writeDataframeV1 (allowWrite : Bool) (backendOk : List Point → Bool)
    (df : DataFrame) (measurement : String) (tagCols fieldCols : Option (List String))
    (timeCol : String) (batchSize : Option Int) :
    Except TErr WriteResult × List BackendCall :=
  match ensureWritesAllowed allowWrite "write_dataframe" with
  | .error e => (.error e, [])
  | .ok _ =>
    if timeCol ∉ df.cols then (.error (.valueError "time_column must exist in dataframe"), [])
    else
      writePointsV1 allowWrite backendOk (dataframePoints df measurement tagCols fieldCols timeCol)
        measurement batchSize

/-- `InfluxDBClientV2.write_dataframe`: gate, require a truthy bucket and the
time column, convert rows to points, delegate to `write_points`. -/
def writeDataframeV2 (allowWrite : Bool) (bucket : Option String)
    (df : DataFrame) (measurement : String) (tagCols fieldCols : Option (List String))
    (timeCol : String) (batchSize : Option Int) :
    Except TErr WriteResult × List BackendCall :=
  match ensureWritesAllowed allowWrite "write_dataframe" with
  | .error e => (.error e, [])
  | .ok _ =>
    if !truthyS bucket then (.error (.valueError "bucket is required for v2 writes"), [])
    else if timeCol ∉ df.cols then (.error (.valueError "time_column must exist in dataframe"), [])
    else
      writePointsV2 allowWrite bucket (dataframePoints df measurement tagCols fieldCols timeCol)
        measurement batchSize

/-- `InfluxDBClientBase.delete_range` (v1 inherits it): gate, then
unconditionally unsupported. -/
def deleteRangeV1 (allowWrite : Bool) (start stop : Dt)
    (tags : Option (List (String × String))) :
    Except TErr Bool × List BackendCall :=
  match ensureWritesAllowed allowWrite "delete_range" with
  | .error e => (.error e, [])
  | .ok _ =>
    let _ := (start, stop, tags)
    (.error (.unsupportedOperation "delete_range not implemented for this client"), [])

/-- `InfluxDBClientV2.delete_range`: gate, require a truthy bucket, build the
predicate, issue one delete call. -/
def deleteRangeV2 (allowWrite : Bool) (bucket : Option String) (org : String)
    (measurement : String) (start stop : Dt) (tags : Option (List (String × String))) :
    Except TErr Bool × List BackendCall :=
  match ensureWritesAllowed allowWrite "delete_range" with
  | .error e => (.error e, [])
  | .ok _ =>
    if !truthyS bucket then (.error (.valueError "bucket is required for v2 delete"), [])
    else
      let base := "_measurement=\"" ++ measurement ++ "\""
      let predicate :=
        match tags with
        | none => base
        | some [] => base
        | some (t :: ts) =>
          base ++ " and " ++
            String.intercalate " and "
              ((t :: ts).map (fun p => p.1 ++ "=\"" ++ p.2 ++ "\""))
      (.ok true, [.deleteCall start stop predicate (bucket.getD "") org])

/-- An admin mutation that is gated and then unconditionally refused with the
given unsupported-operation message, issuing no backend call (this is the
shape of every `create_*`/`delete_*`/`grant_*` method in `base.py`,
`v1/client.py` and `v2/client.py`). -/
def gatedAdminOp (allowWrite : Bool) (op msg : String) :
    Except TErr Bool × List BackendCall :=
  match ensureWritesAllowed allowWrite op with
  | .error e => (.error e, [])
  | .ok _ => (.error (.unsupportedOperation msg), [])

/-- `InfluxDBClientV1.create_database` (admin, deferred by project rule). -/
def createDatabaseV1 (allowWrite : Bool) (name : String) : Except TErr Bool × List BackendCall :=
  let _ := name
  gatedAdminOp allowWrite "create_database" "create_database is disabled until admin ops are approved"

/-- `InfluxDBClientV1.delete_database`. -/
def deleteDatabaseV1 (allowWrite : Bool) (name : String) : Except TErr Bool × List BackendCall :=
  let _ := name
  gatedAdminOp allowWrite "delete_database" "delete_database is disabled until admin ops are approved"

/-- `InfluxDBClientV1.create_user`. -/
def createUserV1 (allowWrite : Bool) (username password : String) : Except TErr Bool × List BackendCall :=
  let _ := (username, password)
  gatedAdminOp allowWrite "create_user" "create_user is disabled until admin ops are approved"

/-- `InfluxDBClientV1.delete_user`. -/
def deleteUserV1 (allowWrite : Bool) (username : String) : Except TErr Bool × List BackendCall :=
  let _ := username
  gatedAdminOp allowWrite "delete_user" "delete_user is disabled until admin ops are approved"

/-- `InfluxDBClientV1.grant_privileges`. -/
def grantPrivilegesV1 (allowWrite : Bool) (user database : String) : Except TErr Bool × List BackendCall :=
  let _ := (user, database)
  gatedAdminOp allowWrite "grant_privileges" "grant_privileges is disabled until admin ops are approved"

/-- `create_bucket` on a v1 client: the `base.py` fallback. -/
def createBucketV1 (allowWrite : Bool) (name retention : String) : Except TErr Bool × List BackendCall :=
  let _ := (name, retention)
  gatedAdminOp allowWrite "create_bucket" "create_bucket not implemented for this client"

/-- `InfluxDBClientV2.create_bucket` (admin, deferred by project rule). -/
def createBucketV2 (allowWrite : Bool) (name retention : String) : Except TErr Bool × List BackendCall :=
  let _ := (name, retention)
  gatedAdminOp allowWrite "create_bucket" "create_bucket is disabled until admin ops are approved"

/-- `InfluxDBClientV2.create_database`. -/
def createDatabaseV2 (allowWrite : Bool) (name : String) : Except TErr Bool × List BackendCall :=
  let _ := name
  gatedAdminOp allowWrite "create_database" "create_database is disabled until admin ops are approved"

/-- `InfluxDBClientV2.delete_database`. -/
def deleteDatabaseV2 (allowWrite : Bool) (name : String) : Except TErr Bool × List BackendCall :=
  let _ := name
  gatedAdminOp allowWrite "delete_database" "delete_database is disabled until admin ops are approved"

/-- `create_user` on a v2 client: the `base.py` fallback. -/
def createUserV2 (allowWrite : Bool) (username password : String) : Except TErr Bool × List BackendCall :=
  let _ := (username, password)
  gatedAdminOp allowWrite "create_user" "create_user not implemented for this client"

/-- `delete_user` on a v2 client: the `base.py` fallback. -/
def deleteUserV2 (allowWrite : Bool) (username : String) : Except TErr Bool × List BackendCall :=
  let _ := username
  gatedAdminOp allowWrite "delete_user" "delete_user not implemented for this client"

/-- `grant_privileges` on a v2 client: the `base.py` fallback. -/
def grantPrivilegesV2 (allowWrite : Bool) (user database : String) : Except TErr Bool × List BackendCall :=
  let _ := (user, database)
  gatedAdminOp allowWrite "grant_privileges" "grant_privileges not implemented for this client"

/-! ## Request validation of `get_timeseries` (v1 and v2)

`get_timeseries` filters falsy field names, rejects an empty remainder, and
only then builds the dialect query text and contacts the backend; the value
returned in the success case below is the built query text (what would be
sent to the backend), so an error value means no query text was ever built. -/

/-- The field filtering `[f for f in list(fields) if f]`. -/
def filterTruthyFields (fields : List String) : List String :=
  fields.filter (fun f => f != "")

/-- The validation-and-build prefix of `InfluxDBClientV1.get_timeseries`. -/
def getTimeseriesQueryV1 (measurement : String) (fields : List String)
    (start stop : Dt) (tags : Option (List (String × String)))
    (interval aggregation : Option String) (timezone : String) : Except TErr String :=
  let fl := filterTruthyFields fields
  if fl.isEmpty then .error (.valueError "fields must contain at least one field name")
  else .ok (buildInfluxqlQuery measurement fl start stop tags interval aggregation timezone)

/-- The validation-and-build prefix of `InfluxDBClientV2.get_timeseries`
(the bucket check comes first in the source). -/
def getTimeseriesQueryV2 (bucket : Option String) (measurement : String)
    (fields : List String) (start stop : Dt) (tags : Option (List (String × String)))
    (interval aggregation : Option String) : Except TErr String :=
  if !truthyS bucket then .error (.valueError "bucket is required for v2 queries")
  else
    let fl := filterTruthyFields fields
    if fl.isEmpty then .error (.valueError "fields must contain at least one field name")
    else .ok (buildFluxQuery (bucket.getD "") measurement fl start stop tags interval aggregation)

/-! # Theorems -/

/-- C3: for every client (v1 or v2) constructed with `allow_write=False`,
every write, delete and admin operation (`write_points`, `write_dataframe`,
`delete_range`, `create_database`, `delete_database`, `create_bucket`,
`create_user`, `delete_user`, `grant_privileges`) fails with
`UnsafeOperationError` and the backend-call trace is empty: the backend
driver is never invoked. -/
theorem c3_allow_write_gate_blocks_all_ops
    (bOk : List Point → Bool) (pts : List Point) (m : String) (bs : Option Int)
    (df : DataFrame) (tc fc : Option (List String)) (timeCol : String)
    (bucket : Option String) (org : String) (s e : Dt)
    (tags : Option (List (String × String))) (name user pwd retention db : String) :
    writePointsV1 false bOk pts m bs = (.error (.unsafeOperation (unsafeMsg "write_points")), [])
    ∧ writePointsV2 false bucket pts m bs = (.error (.unsafeOperation (unsafeMsg "write_points")), [])
    ∧ writeDataframeV1 false bOk df m tc fc timeCol bs
        = (.error (.unsafeOperation (unsafeMsg "write_dataframe")), [])
    ∧ writeDataframeV2 false bucket df m tc fc timeCol bs
        = (.error (.unsafeOperation (unsafeMsg "write_dataframe")), [])
    ∧ deleteRangeV1 false s e tags = (.error (.unsafeOperation (unsafeMsg "delete_range")), [])
    ∧ deleteRangeV2 false bucket org m s e tags
        = (.error (.unsafeOperation (unsafeMsg "delete_range")), [])
    ∧ createDatabaseV1 false name = (.error (.unsafeOperation (unsafeMsg "create_database")), [])
    ∧ deleteDatabaseV1 false db = (.error (.unsafeOperation (unsafeMsg "delete_database")), [])
    ∧ createUserV1 false user pwd = (.error (.unsafeOperation (unsafeMsg "create_user")), [])
    ∧ deleteUserV1 false user = (.error (.unsafeOperation (unsafeMsg "delete_user")), [])
    ∧ grantPrivilegesV1 false user db = (.error (.unsafeOperation (unsafeMsg "grant_privileges")), [])
    ∧ createBucketV1 false name retention = (.error (.unsafeOperation (unsafeMsg "create_bucket")), [])
    ∧ createBucketV2 false name retention = (.error (.unsafeOperation (unsafeMsg "create_bucket")), [])
    ∧ createDatabaseV2 false name = (.error (.unsafeOperation (unsafeMsg "create_database")), [])
    ∧ deleteDatabaseV2 false db = (.error (.unsafeOperation (unsafeMsg "delete_database")), [])
    ∧ createUserV2 false user pwd = (.error (.unsafeOperation (unsafeMsg "create_user")), [])
    ∧ deleteUserV2 false user = (.error (.unsafeOperation (unsafeMsg "delete_user")), [])
    ∧ grantPrivilegesV2 false user db = (.error (.unsafeOperation (unsafeMsg "grant_privileges")), []) :=
  ⟨rfl, rfl, rfl, rfl, rfl, rfl, rfl, rfl, rfl, rfl, rfl, rfl, rfl, rfl, rfl, rfl, rfl, rfl⟩

/-- C4: for every client (v1 or v2), even with `allow_write=True`, each of the
administrative mutation operations `create_database`, `delete_database`,
`create_bucket`, `create_user`, `delete_user` and `grant_privileges` fails
with `UnsupportedOperationError` and issues no backend call. -/
theorem c4_admin_ops_hard_disabled
    (name user pwd retention db : String) :
    createDatabaseV1 true name
      = (.error (.unsupportedOperation "create_database is disabled until admin ops are approved"), [])
    ∧ deleteDatabaseV1 true db
      = (.error (.unsupportedOperation "delete_database is disabled until admin ops are approved"), [])
    ∧ createBucketV1 true name retention
      = (.error (.unsupportedOperation "create_bucket not implemented for this client"), [])
    ∧ createUserV1 true user pwd
      = (.error (.unsupportedOperation "create_user is disabled until admin ops are approved"), [])
    ∧ deleteUserV1 true user
      = (.error (.unsupportedOperation "delete_user is disabled until admin ops are approved"), [])
    ∧ grantPrivilegesV1 true user db
      = (.error (.unsupportedOperation "grant_privileges is disabled until admin ops are approved"), [])
    ∧ createDatabaseV2 true name
      = (.error (.unsupportedOperation "create_database is disabled until admin ops are approved"), [])
    ∧ deleteDatabaseV2 true db
      = (.error (.unsupportedOperation "delete_database is disabled until admin ops are approved"), [])
    ∧ createBucketV2 true name retention
      = (.error (.unsupportedOperation "create_bucket is disabled until admin ops are approved"), [])
    ∧ createUserV2 true user pwd
      = (.error (.unsupportedOperation "create_user not implemented for this client"), [])
    ∧ deleteUserV2 true user
      = (.error (.unsupportedOperation "delete_user not implemented for this client"), [])
    ∧ grantPrivilegesV2 true user db
      = (.error (.unsupportedOperation "grant_privileges not implemented for this client"), []) :=
  ⟨rfl, rfl, rfl, rfl, rfl, rfl, rfl, rfl, rfl, rfl, rfl, rfl⟩

/-- C6: version auto-detection: a non-empty value under some v2 key together
with one under some v1 key is ambiguous; neither is undetectable; exactly one
side determines the version. -/
theorem c6_detect_version (cfg : String → Option String) :
    ((∃ k ∈ v2DetectKeys, ∃ v, cfg k = some v ∧ v ≠ "") →
       (∃ k ∈ v1DetectKeys, ∃ v, cfg k = some v ∧ v ≠ "") →
       detectVersion cfg = .error ambiguousConfigMsg)
    ∧ (¬ (∃ k ∈ v2DetectKeys, ∃ v, cfg k = some v ∧ v ≠ "") →
       ¬ (∃ k ∈ v1DetectKeys, ∃ v, cfg k = some v ∧ v ≠ "") →
       detectVersion cfg = .error cannotInferMsg)
    ∧ ((∃ k ∈ v2DetectKeys, ∃ v, cfg k = some v ∧ v ≠ "") →
       ¬ (∃ k ∈ v1DetectKeys, ∃ v, cfg k = some v ∧ v ≠ "") →
       detectVersion cfg = .ok 2)
    ∧ (¬ (∃ k ∈ v2DetectKeys, ∃ v, cfg k = some v ∧ v ≠ "") →
       (∃ k ∈ v1DetectKeys, ∃ v, cfg k = some v ∧ v ≠ "") →
       detectVersion cfg = .ok 1) := by
  have hkey : ∀ k, cfgHasKey cfg k = true ↔ ∃ v, cfg k = some v ∧ v ≠ "" := by
    intro k
    unfold cfgHasKey
    cases h : cfg k <;> simp [h]
  have hany : ∀ ks : List String,
      ks.any (cfgHasKey cfg) = true ↔ ∃ k ∈ ks, ∃ v, cfg k = some v ∧ v ≠ "" := by
    intro ks
    rw [List.any_eq_true]
    constructor
    · rintro ⟨k, hk, hv⟩; exact ⟨k, hk, (hkey k).mp hv⟩
    · rintro ⟨k, hk, hv⟩; exact ⟨k, hk, (hkey k).mpr hv⟩
  have toFalse : ∀ ks : List String,
      ¬ (∃ k ∈ ks, ∃ v, cfg k = some v ∧ v ≠ "") → ks.any (cfgHasKey cfg) = false := by
    intro ks hne
    cases h : ks.any (cfgHasKey cfg)
    · rfl
    · exact absurd ((hany ks).mp h) hne
  refine ⟨?_, ?_, ?_, ?_⟩
  · intro hv2 hv1
    have b2 := (hany v2DetectKeys).mpr hv2
    have b1 := (hany v1DetectKeys).mpr hv1
    simp [detectVersion, b2, b1]
  · intro hv2 hv1
    have b2 := toFalse v2DetectKeys hv2
    have b1 := toFalse v1DetectKeys hv1
    simp [detectVersion, b2, b1]
  · intro hv2 hv1
    have b2 := (hany v2DetectKeys).mpr hv2
    have b1 := toFalse v1DetectKeys hv1
    simp [detectVersion, b2, b1]
  · intro hv2 hv1
    have b2 := toFalse v2DetectKeys hv2
    have b1 := (hany v1DetectKeys).mpr hv1
    simp [detectVersion, b2, b1]

/-- C6 witness: an ambiguous config (`host` and `url` both set) fails with the
ambiguous-configuration error. -/
theorem c6_detect_version_witness :
    detectVersion (fun k => if k = "host" then some "h" else if k = "url" then some "u" else none)
      = .error ambiguousConfigMsg :=
  (c6_detect_version _).1
    ⟨"url", by decide, "u", by decide, by decide⟩
    ⟨"host", by decide, "h", by decide, by decide⟩

/-- C7: `query_raw` on a v2 client routes to the InfluxQL v1-compatibility
endpoint exactly when the stripped query text starts, case-insensitively,
with one of SELECT/SHOW/CREATE/DROP/DELETE/ALTER/GRANT/REVOKE; in particular
`SELECT * FROM m` (any letter case) goes to the compatibility path and a
query starting with `from(bucket:` goes to the Flux path. -/
theorem c7_dialect_routing (q : String) :
    (queryRawRouteV2 q = .influxqlCompat ↔
       ∃ kw ∈ influxqlKeywords, strStartsWith (pyUpper (pyStrip q)) kw = true)
    ∧ queryRawRouteV2 "SELECT * FROM m" = .influxqlCompat
    ∧ queryRawRouteV2 "select * from m" = .influxqlCompat
    ∧ queryRawRouteV2 "sEleCt * FROM m" = .influxqlCompat
    ∧ (∀ s : String, pyUpper (pyStrip s) = "SELECT * FROM M" →
        queryRawRouteV2 s = .influxqlCompat)
    ∧ queryRawRouteV2 "from(bucket: \"b\") |> range(start: -1h)" = .flux := by
  refine ⟨?_, by decide, by decide, by decide, ?_, by decide⟩
  · have hroute : queryRawRouteV2 q = .influxqlCompat ↔ isInfluxql q = true := by
      unfold queryRawRouteV2
      cases h : isInfluxql q <;> simp [h]
    rw [hroute]
    unfold isInfluxql
    exact List.any_eq_true
  · intro s hs
    unfold queryRawRouteV2 isInfluxql
    rw [hs]
    decide

/-- C7 witness: a mixed-case, whitespace-padded `SELECT` query is routed to
the InfluxQL-compatibility path. -/
theorem c7_dialect_routing_witness :
    queryRawRouteV2 " SeLeCt * from m " = V2Route.influxqlCompat :=
  (c7_dialect_routing "SELECT * FROM m").2.2.2.2.1 " SeLeCt * from m " (by decide)

/-- C10: `get_timeseries` (v1, and v2 with a configured bucket) rejects a
fields iterable containing only empty strings with the same
`ValueError` (`fields must contain at least one field name`) as an empty
list, before any query text is built (the embedded functions return the
query text they would send; an error return means none was built). -/
theorem c10_empty_field_names_rejected
    (m : String) (fields : List String) (s e : Dt)
    (tags : Option (List (String × String))) (itv agg : Option String)
    (tz : String) (bucket : Option String)
    (hf : ∀ f ∈ fields, f = "") (hb : truthyS bucket = true) :
    getTimeseriesQueryV1 m fields s e tags itv agg tz
      = .error (.valueError "fields must contain at least one field name")
    ∧ getTimeseriesQueryV2 bucket m fields s e tags itv agg
      = .error (.valueError "fields must contain at least one field name")
    ∧ getTimeseriesQueryV1 m fields s e tags itv agg tz
      = getTimeseriesQueryV1 m [] s e tags itv agg tz
    ∧ getTimeseriesQueryV2 bucket m fields s e tags itv agg
      = getTimeseriesQueryV2 bucket m [] s e tags itv agg := by
  have hfe : filterTruthyFields fields = [] := by
    unfold filterTruthyFields
    rw [List.filter_eq_nil_iff]
    intro a ha
    simp [hf a ha]
  have hnil : filterTruthyFields ([] : List String) = [] := rfl
  refine ⟨?_, ?_, ?_, ?_⟩ <;>
    simp [getTimeseriesQueryV1, getTimeseriesQueryV2, hfe, hnil, hb]

/-- C10 witness: a v1 and a v2 client (bucket `"b"`) reject `fields=["", ""]`
with the fields validation error. -/
theorem c10_empty_field_names_rejected_witness :
    getTimeseriesQueryV1 "m" ["", ""] ⟨"2020-01-01T00:00:00", none⟩
        ⟨"2020-01-02T00:00:00", none⟩ none none none "UTC"
      = .error (.valueError "fields must contain at least one field name")
    ∧ getTimeseriesQueryV2 (some "b") "m" ["", ""] ⟨"2020-01-01T00:00:00", none⟩
        ⟨"2020-01-02T00:00:00", none⟩ none none none
      = .error (.valueError "fields must contain at least one field name") :=
  ⟨(c10_empty_field_names_rejected "m" ["", ""] _ _ none none none "UTC" (some "b")
      (by decide) (by decide)).1,
   (c10_empty_field_names_rejected "m" ["", ""] ⟨"2020-01-01T00:00:00", none⟩
      ⟨"2020-01-02T00:00:00", none⟩ none none none "UTC" (some "b")
      (by decide) (by decide)).2.1⟩

/-- C8: the InfluxQL builder emits `WHERE time >= 'start' AND time < 'end'`
(inclusive start, exclusive end), wraps each field as `aggregation("field")`
exactly when the aggregation is provided (quoted raw otherwise), and appends
`GROUP BY time(interval)` exactly when both aggregation and interval are
provided (truthy). The equation spells out the emitted text in full. -/
theorem c8_influxql_query_shape
    (m : String) (fl : List String) (s e : Dt)
    (tags : Option (List (String × String))) (itv agg : Option String) (tz : String) :
    buildInfluxqlQuery m fl s e tags itv agg tz =
      "SELECT "
        ++ String.intercalate ", "
            (if truthyS agg then fl.map (fun f => agg.getD "" ++ "(\"" ++ f ++ "\")")
             else fl.map (fun f => "\"" ++ f ++ "\""))
        ++ " FROM \"" ++ m ++ "\" WHERE "
        ++ ("time >= '" ++ fmtDtime s ++ "' AND time < '" ++ fmtDtime e ++ "'"
            ++ (match tags with
                | none => ""
                | some [] => ""
                | some (t :: ts) => " AND " ++ tagsCondition (t :: ts)))
        ++ (if truthyS agg && truthyS itv then " GROUP BY time(" ++ itv.getD "" ++ ")" else "")
        ++ (if tz != "" then " TZ('" ++ tz ++ "')" else "") := by
  have hfe : fieldExprs fl agg =
      (if truthyS agg then fl.map (fun f => agg.getD "" ++ "(\"" ++ f ++ "\")")
       else fl.map (fun f => "\"" ++ f ++ "\"")) := by
    match agg with
    | none => rfl
    | some a =>
      by_cases h : a = ""
      · subst h; rfl
      · simp only [fieldExprs, if_neg h, truthyS, Option.getD_some]
        rw [if_pos (by simpa using h)]
  unfold buildInfluxqlQuery timeCondition
  rw [hfe]

/-- Concatenating the chunks of `chunkList` gives back the input list. -/
theorem chunkList_flatten (k : Nat) (hk : 1 ≤ k) (l : List Point) :
    (chunkList k l).flatten = l := by
  have main : ∀ n (l : List Point), l.length ≤ n → (chunkList k l).flatten = l := by
    intro n
    induction n with
    | zero =>
      intro l hl
      cases l with
      | nil => simp [chunkList]
      | cons x xs => simp at hl
    | succ n ih =>
      intro l hl
      cases l with
      | nil => simp [chunkList]
      | cons x xs =>
        simp only [List.length_cons] at hl
        rw [chunkList, if_neg (by omega), List.flatten_cons,
          ih ((x :: xs).drop k) (by simp only [List.length_drop, List.length_cons]; omega)]
        exact List.take_append_drop k (x :: xs)
  exact main l.length l le_rfl

/-- With a positive `k`, every chunk of `chunkList` has at most `k`
elements. -/
theorem chunkList_chunk_le_k (k : Nat) (hk : 1 ≤ k) (l : List Point) :
    ∀ c ∈ chunkList k l, c.length ≤ k := by
  have main : ∀ n (l : List Point), l.length ≤ n →
      ∀ c ∈ chunkList k l, c.length ≤ k := by
    intro n
    induction n with
    | zero =>
      intro l hl c hc
      cases l with
      | nil => simp [chunkList] at hc
      | cons x xs => simp at hl
    | succ n ih =>
      intro l hl c hc
      cases l with
      | nil => simp [chunkList] at hc
      | cons x xs =>
        simp only [List.length_cons] at hl
        rw [chunkList, if_neg (by omega)] at hc
        rcases List.mem_cons.mp hc with h | h
        · subst h
          have := List.length_take k (x :: xs)
          omega
        · exact ih ((x :: xs).drop k)
            (by simp only [List.length_drop, List.length_cons]; omega) c h
  exact main l.length l le_rfl

/-- `chunkList` produces exactly `⌈length / k⌉` chunks. -/
theorem chunkList_length (k : Nat) (hk : 1 ≤ k) (l : List Point) :
    (chunkList k l).length = (l.length + k - 1) / k := by
  have main : ∀ n (l : List Point), l.length ≤ n →
      (chunkList k l).length = (l.length + k - 1) / k := by
    intro n
    induction n with
    | zero =>
      intro l hl
      cases l with
      | nil =>
        simp [chunkList]
        exact (Nat.div_eq_of_lt (by omega)).symm
      | cons x xs => simp at hl
    | succ n ih =>
      intro l hl
      cases l with
      | nil =>
        simp [chunkList]
        exact (Nat.div_eq_of_lt (by omega)).symm
      | cons x xs =>
        simp only [List.length_cons] at hl
        rw [chunkList, if_neg (by omega), List.length_cons,
          ih ((x :: xs).drop k) (by simp only [List.length_drop, List.length_cons]; omega)]
        simp only [List.length_drop, List.length_cons]
        by_cases hcase : k ≤ xs.length + 1
        · have e1 : xs.length + 1 - k + k - 1 = xs.length := by omega
          have e2 : xs.length + 1 + k - 1 = xs.length + k := by omega
          rw [e1, e2, Nat.add_div_right _ (show 0 < k by omega)]
        · have e1 : xs.length + 1 - k + k - 1 = k - 1 := by omega
          have e2 : xs.length + 1 + k - 1 = xs.length + k := by omega
          rw [e1, e2, Nat.div_eq_of_lt (show k - 1 < k by omega),
            Nat.add_div_right _ (show 0 < k by omega),
            Nat.div_eq_of_lt (show xs.length < k by omega)]
  exact main l.length l le_rfl

/-- C5: with `allow_write=True`, writing `N` points with `batch_size=k ≥ 1`
issues exactly `⌈N/k⌉` backend write calls (v1 and v2), each of at most `k`
points, which concatenate back to the points in order (after measurement
defaulting); the returned `WriteResult` reports `⌈N/k⌉` batches; and a
`batch_size ≤ 0` fails with the validation error before any backend call. -/
theorem c5_write_batching
    (bOk : List Point → Bool) (pts : List Point) (m : String)
    (bucket : String) (hb : bucket ≠ "")
    (k : Nat) (hk : 1 ≤ k) (z : Int) (hz : z ≤ 0) :
    (∃ chunks : List (List Point),
        (writePointsV1 true bOk pts m (some (k : Int))).2 = chunks.map .writeBatch
        ∧ chunks.length = (pts.length + k - 1) / k
        ∧ (∀ c ∈ chunks, c.length ≤ k)
        ∧ chunks.flatten = setDefaultMeasurement m pts)
    ∧ (∃ ok : Bool, (writePointsV1 true bOk pts m (some (k : Int))).1
        = .ok ⟨ok, none, some ⟨pts.length, some (k : Int), (pts.length + k - 1) / k⟩⟩)
    ∧ (∃ chunks : List (List Point),
        (writePointsV2 true (some bucket) pts m (some (k : Int))).2 = chunks.map .writeBatch
        ∧ chunks.length = (pts.length + k - 1) / k
        ∧ (∀ c ∈ chunks, c.length ≤ k)
        ∧ chunks.flatten = setDefaultMeasurement m pts)
    ∧ (writePointsV2 true (some bucket) pts m (some (k : Int))).1
        = .ok ⟨true, none, some ⟨pts.length, some (k : Int), (pts.length + k - 1) / k⟩⟩
    ∧ writePointsV1 true bOk pts m (some z)
        = (.error (.valueError "batch_size must be greater than zero"), [])
    ∧ writePointsV2 true (some bucket) pts m (some z)
        = (.error (.valueError "batch_size must be greater than zero"), []) := by
  have hkz : badBatchSize (some (k : Int)) = false := by
    simp only [badBatchSize, decide_eq_false_iff_not]
    omega
  have hzz : badBatchSize (some z) = true := by
    simp only [badBatchSize, decide_eq_true_eq]
    omega
  have hlen : (setDefaultMeasurement m pts).length = pts.length := by
    simp [setDefaultMeasurement]
  have hcp : chunkPoints (setDefaultMeasurement m pts) (some (k : Int))
      = chunkList k (setDefaultMeasurement m pts) := by
    rw [show chunkPoints (setDefaultMeasurement m pts) (some (k : Int))
        = (if (k : Int) = 0 then [setDefaultMeasurement m pts]
           else if (k : Int) < 0 then []
           else chunkList ((k : Int)).toNat (setDefaultMeasurement m pts)) from rfl]
    rw [if_neg (by omega), if_neg (by omega)]
    simp
  have hbt : truthyS (some bucket) = true := by
    simpa [truthyS] using hb
  have hv1 : writePointsV1 true bOk pts m (some (k : Int))
      = (.ok ⟨(chunkList k (setDefaultMeasurement m pts)).all bOk, none,
            some ⟨pts.length, some (k : Int),
              (chunkList k (setDefaultMeasurement m pts)).length⟩⟩,
          (chunkList k (setDefaultMeasurement m pts)).map .writeBatch) := by
    simp [writePointsV1, ensureWritesAllowed, hkz, hcp]
  have hv2 : writePointsV2 true (some bucket) pts m (some (k : Int))
      = (.ok ⟨true, none,
            some ⟨pts.length, some (k : Int),
              (chunkList k (setDefaultMeasurement m pts)).length⟩⟩,
          (chunkList k (setDefaultMeasurement m pts)).map .writeBatch) := by
    simp [writePointsV2, ensureWritesAllowed, hkz, hcp, hbt]
  have hcl : (chunkList k (setDefaultMeasurement m pts)).length = (pts.length + k - 1) / k := by
    rw [chunkList_length k hk, hlen]
  refine ⟨⟨chunkList k (setDefaultMeasurement m pts), ?_, hcl, ?_, ?_⟩,
    ⟨(chunkList k (setDefaultMeasurement m pts)).all bOk, ?_⟩,
    ⟨chunkList k (setDefaultMeasurement m pts), ?_, hcl, ?_, ?_⟩, ?_, ?_, ?_⟩
  · rw [hv1]
  · exact chunkList_chunk_le_k k hk _
  · exact chunkList_flatten k hk _
  · rw [hv1, hcl]
  · rw [hv2]
  · exact chunkList_chunk_le_k k hk _
  · exact chunkList_flatten k hk _
  · rw [hv2, hcl]
  · simp [writePointsV1, ensureWritesAllowed, hzz]
  · simp [writePointsV2, ensureWritesAllowed, hzz, hbt]

/-- C5 witness: 5 points with `batch_size=2` on a v2 client report exactly 3
batches. -/
theorem c5_write_batching_witness :
    (writePointsV2 true (some "b")
        [⟨none, [], none, []⟩, ⟨none, [], none, []⟩, ⟨none, [], none, []⟩,
         ⟨none, [], none, []⟩, ⟨none, [], none, []⟩] "m" (some 2)).1
      = .ok ⟨true, none, some ⟨5, some 2, 3⟩⟩ :=
  (c5_write_batching (fun _ => true)
    [⟨none, [], none, []⟩, ⟨none, [], none, []⟩, ⟨none, [], none, []⟩,
     ⟨none, [], none, []⟩, ⟨none, [], none, []⟩] "m" "b" (by decide)
    2 (by decide) 0 (by decide)).2.2.2.1

/-- Lexicographic code-point comparison is asymmetric. -/
theorem strLt_asymm : ∀ as bs : List Char, strLt as bs = true → strLt bs as = false := by
  intro as
  induction as with
  | nil =>
    intro bs h
    cases bs with
    | nil => simp [strLt] at h
    | cons b bs => rfl
  | cons a as ih =>
    intro bs h
    cases bs with
    | nil => simp [strLt] at h
    | cons b bs =>
      simp only [strLt] at h ⊢
      by_cases h1 : a.toNat < b.toNat
      · rw [if_neg (by omega), if_pos h1]
      · rw [if_neg h1] at h
        by_cases h2 : b.toNat < a.toNat
        · rw [if_pos h2] at h
          exact absurd h (by simp)
        · rw [if_neg h2] at h
          rw [if_neg h2, if_neg h1]
          exact ih bs h

/-- Lexicographic code-point comparison is irreflexive. -/
theorem strLt_irrefl (as : List Char) : strLt as as = false := by
  cases h : strLt as as
  · rfl
  · have h2 := strLt_asymm as as h
    rw [h] at h2
    exact h2

/-- Lexicographic code-point comparison is transitive. -/
theorem strLt_trans : ∀ as bs cs : List Char,
    strLt as bs = true → strLt bs cs = true → strLt as cs = true := by
  intro as
  induction as with
  | nil =>
    intro bs cs hab hbc
    cases bs with
    | nil => simp [strLt] at hab
    | cons b bs =>
      cases cs with
      | nil => simp [strLt] at hbc
      | cons c cs => rfl
  | cons a as ih =>
    intro bs cs hab hbc
    cases bs with
    | nil => simp [strLt] at hab
    | cons b bs =>
      cases cs with
      | nil => simp [strLt] at hbc
      | cons c cs =>
        simp only [strLt] at hab hbc ⊢
        by_cases h1 : a.toNat < b.toNat
        · by_cases h2 : b.toNat < c.toNat
          · rw [if_pos (by omega)]
          · rw [if_neg h2] at hbc
            by_cases h3 : c.toNat < b.toNat
            · rw [if_pos h3] at hbc
              exact absurd hbc (by simp)
            · rw [if_pos (by omega)]
        · rw [if_neg h1] at hab
          by_cases h2 : b.toNat < a.toNat
          · rw [if_pos h2] at hab
            exact absurd hab (by simp)
          · rw [if_neg h2] at hab
            by_cases h3 : b.toNat < c.toNat
            · rw [if_pos (by omega)]
            · rw [if_neg h3] at hbc
              by_cases h4 : c.toNat < b.toNat
              · rw [if_pos h4] at hbc
                exact absurd hbc (by simp)
              · rw [if_neg h4] at hbc
                rw [if_neg (by omega), if_neg (by omega)]
                exact ih bs cs hab hbc

/-- Lexicographic code-point comparison is trichotomous. -/
theorem strLt_trichotomy : ∀ as bs : List Char,
    strLt as bs = true ∨ as = bs ∨ strLt bs as = true := by
  intro as
  induction as with
  | nil =>
    intro bs
    cases bs with
    | nil => exact Or.inr (Or.inl rfl)
    | cons b bs => exact Or.inl rfl
  | cons a as ih =>
    intro bs
    cases bs with
    | nil => exact Or.inr (Or.inr rfl)
    | cons b bs =>
      by_cases h1 : a.toNat < b.toNat
      · exact Or.inl (by simp only [strLt]; rw [if_pos h1])
      · by_cases h2 : b.toNat < a.toNat
        · exact Or.inr (Or.inr (by simp only [strLt]; rw [if_pos h2]))
        · have hc : a = b := Char.eq_of_val_eq (by
            have hn : a.toNat = b.toNat := by omega
            exact UInt32.ext hn)
          rcases ih bs with h | h | h
          · exact Or.inl (by simp only [strLt]; rw [if_neg h1, if_neg h2]; exact h)
          · exact Or.inr (Or.inl (by rw [hc, h]))
          · exact Or.inr (Or.inr (by simp only [strLt]; rw [if_neg h2, if_neg h1]; exact h))

/-- `pyStrLt` facts lifted to `String`. -/
theorem pyStrLt_trichotomy (a b : String) :
    pyStrLt a b = true ∨ a = b ∨ pyStrLt b a = true := by
  rcases strLt_trichotomy a.data b.data with h | h | h
  · exact Or.inl h
  · refine Or.inr (Or.inl ?_)
    cases a with
    | mk da =>
      cases b with
      | mk db =>
        have h2 : da = db := h
        rw [h2]
  · exact Or.inr (Or.inr h)

/-- Python's tuple comparison on string pairs is transitive. -/
theorem pairLe_trans (a b c : String × String) :
    pairLe a b = true → pairLe b c = true → pairLe a c = true := by
  intro hab hbc
  simp only [pairLe, pyStrLe, Bool.or_eq_true, Bool.and_eq_true, decide_eq_true_eq]
    at hab hbc ⊢
  rcases hab with h1 | ⟨h1, h2⟩
  · rcases hbc with g1 | ⟨g1, g2⟩
    · exact Or.inl (strLt_trans _ _ _ h1 g1)
    · exact Or.inl (g1 ▸ h1)
  · rcases hbc with g1 | ⟨g1, g2⟩
    · exact Or.inl (h1 ▸ g1)
    · refine Or.inr ⟨h1.trans g1, ?_⟩
      rcases h2 with h2 | h2 <;> rcases g2 with g2 | g2
      · exact Or.inl (strLt_trans _ _ _ h2 g2)
      · exact Or.inl (g2 ▸ h2)
      · exact Or.inl (h2 ▸ g2)
      · exact Or.inr (h2.trans g2)

/-- Python's tuple comparison on string pairs is total. -/
theorem pairLe_total (a b : String × String) :
    (pairLe a b || pairLe b a) = true := by
  simp only [pairLe, pyStrLe, Bool.or_eq_true, Bool.and_eq_true, decide_eq_true_eq]
  rcases pyStrLt_trichotomy a.1 b.1 with h | h | h
  · exact Or.inl (Or.inl h)
  · rcases pyStrLt_trichotomy a.2 b.2 with h2 | h2 | h2
    · exact Or.inl (Or.inr ⟨h, Or.inl h2⟩)
    · exact Or.inl (Or.inr ⟨h, Or.inr h2⟩)
    · exact Or.inr (Or.inr ⟨h.symm, Or.inl h2⟩)
  · exact Or.inr (Or.inl h)

/-- Python's tuple comparison on string pairs is antisymmetric. -/
theorem pairLe_antisymm (a b : String × String) :
    pairLe a b = true → pairLe b a = true → a = b := by
  intro hab hba
  simp only [pairLe, pyStrLe, Bool.or_eq_true, Bool.and_eq_true, decide_eq_true_eq]
    at hab hba
  have lt_contra : ∀ x y : String, pyStrLt x y = true → pyStrLt y x = true → False := by
    intro x y hxy hyx
    have h := strLt_asymm x.data y.data hxy
    have hyx2 : strLt y.data x.data = true := hyx
    rw [hyx2] at h
    simp at h
  rcases hab with h1 | ⟨h1, h2⟩
  · rcases hba with g1 | ⟨g1, g2⟩
    · exact (lt_contra a.1 b.1 h1 g1).elim
    · exact absurd h1 (by rw [g1]; simp [pyStrLt, strLt_irrefl])
  · rcases hba with g1 | ⟨g1, g2⟩
    · exact absurd g1 (by rw [h1]; simp [pyStrLt, strLt_irrefl])
    · have h22 : a.2 = b.2 := by
        rcases h2 with h2 | h2 <;> rcases g2 with g2 | g2
        · exact (lt_contra a.2 b.2 h2 g2).elim
        · exact g2.symm
        · exact h2
        · exact h2
      exact Prod.ext h1 h22

/-- The pair order is total (as a `Prop`-valued relation). -/
instance : IsTotal (String × String) (fun a b => pairLe a b = true) :=
  ⟨fun a b => by simpa [Bool.or_eq_true] using pairLe_total a b⟩

/-- The pair order is transitive. -/
instance : IsTrans (String × String) (fun a b => pairLe a b = true) :=
  ⟨pairLe_trans⟩

/-- The pair order is antisymmetric. -/
instance : IsAntisymm (String × String) (fun a b => pairLe a b = true) :=
  ⟨pairLe_antisymm⟩

/-- `sorted(tags.items())` depends only on the multiset of pairs: permuting
the dict's insertion order cannot change the sorted result. -/
theorem sortTagPairs_perm_eq {t1 t2 : List (String × String)} (p : t1.Perm t2) :
    sortTagPairs t1 = sortTagPairs t2 := by
  have s1 : List.Sorted (fun a b => pairLe a b = true) (sortTagPairs t1) :=
    List.sorted_insertionSort _ t1
  have s2 : List.Sorted (fun a b => pairLe a b = true) (sortTagPairs t2) :=
    List.sorted_insertionSort _ t2
  have p1 : (sortTagPairs t1).Perm (sortTagPairs t2) :=
    ((List.perm_insertionSort _ t1).trans p).trans (List.perm_insertionSort _ t2).symm
  exact List.eq_of_perm_of_sorted p1 s1 s2

/-- C9: the series name used to prefix columns in `get_multiple_timeseries`
is invariant under permutation of the tags mapping's order (tags are sorted
by key), and measurement `power` with tags `{"b":"2","a":"1"}` and field
`value` yields the column `power_a=1_b=2_value`. -/
theorem c9_series_name_tag_order_invariant :
    (∀ (m : String) (t1 t2 : List (String × String)), t1.Perm t2 →
        seriesNameOf m (some t1) = seriesNameOf m (some t2))
    ∧ seriesNameOf "power" (some [("b", "2"), ("a", "1")]) = "power_a=1_b=2"
    ∧ (renameSeriesCols ⟨["time", "value"], [[Cell.int 0, Cell.int 1]]⟩
         (seriesNameOf "power" (some [("b", "2"), ("a", "1")]))).cols
        = ["time", "power_a=1_b=2_value"] := by
  refine ⟨?_, by rfl, by rfl⟩
  intro m t1 t2 p
  cases t1 with
  | nil =>
    have h2 : t2 = [] := p.symm.eq_nil
    rw [h2]
  | cons a as =>
    cases t2 with
    | nil => exact absurd p.eq_nil (by simp)
    | cons b bs =>
      simp only [seriesNameOf]
      rw [sortTagPairs_perm_eq p]

/-- C9 witness: the two insertion orders of `{"a":"1","b":"2"}` yield the
same series name. -/
theorem c9_series_name_tag_order_invariant_witness :
    seriesNameOf "power" (some [("b", "2"), ("a", "1")])
      = seriesNameOf "power" (some [("a", "1"), ("b", "2")]) :=
  c9_series_name_tag_order_invariant.1 "power" _ _ (by decide)

/-- Writing into position `i` and reading position `i` back. -/
theorem getD_set_self (r : List Cell) (i : Nat) (v d : Cell) :
    (r.set i v).getD i d = if i < r.length then v else d := by
  induction r generalizing i with
  | nil => simp
  | cons a as ih =>
    cases i with
    | zero => simp
    | succ j =>
      simp only [List.set_cons_succ, List.getD_cons_succ, List.length_cons, ih]
      by_cases h : j < as.length
      · rw [if_pos h, if_pos (by omega)]
      · rw [if_neg h, if_neg (by omega)]

/-- Normalizing the time column rewrites exactly the `time` values, each
through `convertTimeCell`. -/
theorem timeColumn_convertTimeColumn (off : String → Int) (tz : String) (df : DataFrame) :
    timeColumn (convertTimeColumn off tz df) = (timeColumn df).map (convertTimeCell off tz) := by
  unfold convertTimeColumn timeColumn
  cases h : colIdx "time" df.cols with
  | none => simp [h]
  | some i =>
    simp only [h, List.map_map]
    apply List.map_congr_left
    intro r _
    simp only [Function.comp_apply]
    rw [getD_set_self]
    by_cases hlen : i < r.length
    · rw [if_pos hlen]
    · rw [if_neg hlen, List.getD_eq_default r Cell.nan (by omega)]
      rfl

/-- A listed column has a position. -/
theorem colIdx_isSome_of_mem {c : String} :
    ∀ cols : List String, c ∈ cols → ∃ i, colIdx c cols = some i := by
  intro cols hmem
  induction cols with
  | nil => simp at hmem
  | cons x xs ih =>
    by_cases hc : x = c
    · exact ⟨0, by simp [colIdx, hc]⟩
    · have hmem2 : c ∈ xs := by
        rcases List.mem_cons.mp hmem with h | h
        · exact absurd h.symm hc
        · exact h
      obtain ⟨j, hj⟩ := ih hmem2
      exact ⟨j + 1, by simp [colIdx, hc, hj]⟩

/-- Reordering `time` to the front does not change the time values. -/
theorem timeColumn_moveTimeFirst (df : DataFrame) :
    timeColumn (moveTimeFirst df) = timeColumn df := by
  unfold moveTimeFirst
  split
  · rename_i hcond
    simp only [Bool.and_eq_true, decide_eq_true_eq] at hcond
    obtain ⟨⟨hne, hhead⟩, hmem⟩ := hcond
    obtain ⟨i, hi⟩ := colIdx_isSome_of_mem df.cols hmem
    unfold timeColumn
    simp only [hi]
    have hnew : colIdx "time" ("time" :: df.cols.filter (fun c => c != "time")) = some 0 := by
      simp [colIdx]
    simp only [hnew, List.map_map]
    apply List.map_congr_left
    intro r _
    simp only [Function.comp_apply, List.map_cons, List.getD_cons_zero]
    unfold cellAt
    rw [hi]
  · rfl

/-- C2 (amended): on every non-empty `get_timeseries` result with a `time`
column, each returned time value is the backend UTC instant passed through
the normalization: for timezone `"UTC"` (or a falsy timezone) the wall-clock
value is unchanged but the value stays zone-aware UTC (the zone is NOT
stripped); only for a truthy non-UTC zone is the wall clock shifted by the
zone's offset and the zone info stripped (zone-naive local time). -/
theorem c2_time_normalization (off : String → Int) (tz : String) (df : DataFrame)
    (h1 : dfEmpty df = false) (h2 : "time" ∈ df.cols) :
    timeColumn (normalizeV1Result off tz df) = (timeColumn df).map (convertTimeCell off tz)
    ∧ (∀ t : Int, normalizeTimeValue off "UTC" t = ⟨t, some 0⟩)
    ∧ (tz ≠ "" → pyUpper tz ≠ "UTC" →
        ∀ t : Int, normalizeTimeValue off tz t = ⟨t + off tz, none⟩) := by
  refine ⟨?_, ?_, ?_⟩
  · unfold normalizeV1Result
    rw [if_neg (by simp [h1]), if_pos h2, timeColumn_moveTimeFirst,
      timeColumn_convertTimeColumn]
  · intro t
    rfl
  · intro hne hnu t
    unfold normalizeTimeValue
    rw [if_pos]
    simp only [Bool.and_eq_true, bne_iff_ne]
    exact ⟨hne, hnu⟩

/-- C2 counterexample: the claim says a `"UTC"` request returns zone-naive
timestamps; the code keeps them zone-aware (`tzinfo == UTC`), as the repo's
own test asserts. -/
theorem c2_time_normalization_counterexample :
    ¬ ((normalizeTimeValue (fun _ => 0) "UTC" 100).zoneOffset = none) := by
  decide

/-- C2 witness: instant 100 with offset-60 zone `Europe/Berlin` becomes naive
wall clock 160; with `"UTC"` it stays aware at 100. -/
theorem c2_time_normalization_witness :
    timeColumn (normalizeV1Result (fun _ => 60) "Europe/Berlin"
        ⟨["time", "value"], [[Cell.int 100, Cell.int 5]]⟩)
      = [Cell.time ⟨160, none⟩]
    ∧ normalizeTimeValue (fun _ => 60) "UTC" 100 = ⟨100, some 0⟩
    ∧ normalizeTimeValue (fun _ => 60) "Europe/Berlin" 100 = ⟨160, none⟩ := by
  obtain ⟨h1, h2, h3⟩ := c2_time_normalization (fun _ => 60) "Europe/Berlin"
    ⟨["time", "value"], [[Cell.int 100, Cell.int 5]]⟩ (by decide) (by decide)
  exact ⟨h1.trans (by decide), h2 100, h3 (by decide) (by decide) 100⟩

/-- The `continue` step of `get_multiple_timeseries`: a valid entry whose
fetch comes back empty leaves the accumulator untouched. -/
theorem gmtsStep_skip_empty (fetch : FetchArgs → DataFrame) (gstart gend : Option Dt)
    (gint gagg : Option String) (tz : String) (q : MultiQuery)
    (m : String) (hm : q.measurement = some m) (hm2 : m ≠ "")
    (s e : Dt) (hs : optOr q.start gstart = some s) (he : optOr q.stop gend = some e)
    (hfetch : dfEmpty (fetch ⟨m, resolveFields q, s, e, q.tags,
        optOr q.interval gint, optOr q.aggregation gagg, tz⟩) = true)
    (acc : DataFrame) :
    gmtsStep fetch gstart gend gint gagg tz acc q = .ok acc := by
  unfold gmtsStep
  rw [hm]
  simp only [hs, he]
  rw [if_neg hm2, if_pos hfetch]

/-- C1 (amended): in `get_multiple_timeseries`, an entry whose single-series
fetch returns an empty result is skipped entirely (`continue`): the merged
output is identical — same columns, same rows — to the output with that entry
absent. In particular no NaN column is inserted for the empty series, and the
row count is unaffected by the entry. -/
theorem c1_empty_series_skipped (fetch : FetchArgs → DataFrame)
    (qs1 qs2 : List MultiQuery) (q : MultiQuery)
    (gstart gend : Option Dt) (gint gagg : Option String) (tz : String)
    (m : String) (hm : q.measurement = some m) (hm2 : m ≠ "")
    (s e : Dt) (hs : optOr q.start gstart = some s) (he : optOr q.stop gend = some e)
    (hfetch : dfEmpty (fetch ⟨m, resolveFields q, s, e, q.tags,
        optOr q.interval gint, optOr q.aggregation gagg, tz⟩) = true) :
    getMultipleTimeseries fetch (qs1 ++ q :: qs2) gstart gend gint gagg tz
      = getMultipleTimeseries fetch (qs1 ++ qs2) gstart gend gint gagg tz := by
  have hstep := gmtsStep_skip_empty fetch gstart gend gint gagg tz q m hm hm2 s e hs he hfetch
  suffices hgo : ∀ (qs1 : List MultiQuery) (acc : DataFrame),
      gmtsGo fetch gstart gend gint gagg tz acc (qs1 ++ q :: qs2)
        = gmtsGo fetch gstart gend gint gagg tz acc (qs1 ++ qs2) by
    exact hgo qs1 ⟨[], []⟩
  intro qs1
  induction qs1 with
  | nil =>
    intro acc
    simp only [List.nil_append]
    rw [show gmtsGo fetch gstart gend gint gagg tz acc (q :: qs2)
        = (match gmtsStep fetch gstart gend gint gagg tz acc q with
           | .error e => .error e
           | .ok acc2 => gmtsGo fetch gstart gend gint gagg tz acc2 qs2) from rfl,
      hstep acc]
  | cons p ps ih =>
    intro acc
    simp only [List.cons_append]
    unfold gmtsGo
    cases gmtsStep fetch gstart gend gint gagg tz acc p with
    | error e => rfl
    | ok acc2 => exact ih acc2

/-- C1 counterexample: one request for measurement `m`, field `value`, whose
fetch returns an empty frame. The claim says the merged output contains a
column `m_value` of NaN; the code returns the empty frame with no columns at
all. -/
theorem c1_empty_series_skipped_counterexample :
    getMultipleTimeseries (fun _ => ⟨[], []⟩)
        [⟨some "m", some (.many ["value"]), none, none,
          some ⟨"2020-01-01T00:00:00", none⟩, some ⟨"2020-01-02T00:00:00", none⟩,
          none, none⟩]
        none none none none "UTC"
      = .ok ⟨[], []⟩
    ∧ ¬ ("m_value" ∈ (DataFrame.mk [] []).cols) := by
  exact ⟨rfl, by decide⟩

/-- C1 witness: with a fetch that is empty for measurement `m` and non-empty
for `a`, the three-entry request list produces exactly the two-entry
output. -/
theorem c1_empty_series_skipped_witness :
    getMultipleTimeseries
        (fun args => if args.measurement = "m" then ⟨[], []⟩
          else ⟨["time", "value"], [[Cell.int 0, Cell.int 5]]⟩)
        [⟨some "a", some (.many ["value"]), none, none,
          some ⟨"2020-01-01T00:00:00", none⟩, some ⟨"2020-01-02T00:00:00", none⟩,
          none, none⟩,
         ⟨some "m", some (.many ["value"]), none, none,
          some ⟨"2020-01-01T00:00:00", none⟩, some ⟨"2020-01-02T00:00:00", none⟩,
          none, none⟩,
         ⟨some "b", some (.many ["value"]), none, none,
          some ⟨"2020-01-01T00:00:00", none⟩, some ⟨"2020-01-02T00:00:00", none⟩,
          none, none⟩]
        none none none none "UTC"
      = getMultipleTimeseries
          (fun args => if args.measurement = "m" then ⟨[], []⟩
            else ⟨["time", "value"], [[Cell.int 0, Cell.int 5]]⟩)
          [⟨some "a", some (.many ["value"]), none, none,
            some ⟨"2020-01-01T00:00:00", none⟩, some ⟨"2020-01-02T00:00:00", none⟩,
            none, none⟩,
           ⟨some "b", some (.many ["value"]), none, none,
            some ⟨"2020-01-01T00:00:00", none⟩, some ⟨"2020-01-02T00:00:00", none⟩,
            none, none⟩]
          none none none none "UTC" :=
  c1_empty_series_skipped
    (fun args => if args.measurement = "m" then ⟨[], []⟩
      else ⟨["time", "value"], [[Cell.int 0, Cell.int 5]]⟩)
    [⟨some "a", some (.many ["value"]), none, none,
      some ⟨"2020-01-01T00:00:00", none⟩, some ⟨"2020-01-02T00:00:00", none⟩,
      none, none⟩]
    [⟨some "b", some (.many ["value"]), none, none,
      some ⟨"2020-01-01T00:00:00", none⟩, some ⟨"2020-01-02T00:00:00", none⟩,
      none, none⟩]
    ⟨some "m", some (.many ["value"]), none, none,
      some ⟨"2020-01-01T00:00:00", none⟩, some ⟨"2020-01-02T00:00:00", none⟩,
      none, none⟩
    none none none none "UTC" "m" rfl (by decide)
    ⟨"2020-01-01T00:00:00", none⟩ ⟨"2020-01-02T00:00:00", none⟩ rfl rfl (by decide)
